import Mathlib

/-!
Shallow embedding of the GitHub action in src/main.js (aws-ssm-run-command).
The action reads its inputs, sends an SSM SendCommand request, polls
GetCommandInvocation every 5 seconds up to a hard cap of 120 attempts, and
maps the final status, exit code and captured output onto action outputs and
a success or failure signal.  The embedding turns the effectful procedure
into a pure function from the inputs and an environment (the remote service
replies) to the list of observable events the procedure performs, in order.
-/

namespace SSMAction

/-- Values of the five action inputs as returned by the actions toolkit:
an input that is not supplied is the empty string. -/
structure Inputs where
  instanceId : String
  region : String
  command : String
  workingDirectory : String
  timeoutSeconds : String
deriving DecidableEq, Repr

/-- The Parameters map of the SendCommand request built in main.js: it always
holds a commands entry, and holds a workingDirectory entry only when the
working-directory input was provided (source lines 33 to 45). -/
structure SSMParameters where
  commands : List String
  workingDirectory : Option (List String)
deriving DecidableEq, Repr

/-- The SendCommand request record built in main.js.  TimeoutSeconds holds
the result of parseInt on the timeout input; none stands for NaN. -/
structure SendCommandRequest where
  InstanceIds : List String
  DocumentName : String
  Parameters : SSMParameters
  TimeoutSeconds : Option Int
deriving DecidableEq, Repr

/-- A GetCommandInvocation reply.  ResponseCode, StandardOutputContent and
StandardErrorContent may be absent from the reply; none stands for the
absent (undefined) field. -/
structure InvocationResponse where
  Status : String
  ResponseCode : Option Int
  StandardOutputContent : Option String
  StandardErrorContent : Option String
deriving DecidableEq, Repr

/-- The remote service as seen by one execution of the action: the reply to
the single SendCommand call (an error message or a command id), and the
reply to the n-th GetCommandInvocation call. -/
structure Env where
  sendResult : SendCommandRequest → Except String String
  invocation : Nat → Except String InvocationResponse

/-- One observable step of the procedure, in the order performed:
log lines, remote calls, the 5-second sleeps, output assignments and
setFailed signals. -/
inductive Event where
  | info (msg : String)
  | warning (msg : String)
  | sendCommand (req : SendCommandRequest)
  | getInvocation (commandId instanceId : String)
  | wait (ms : Nat)
  | setOutput (name value : String)
  | setFailed (msg : String)
deriving DecidableEq, Repr

/-- Modelled from the dependency contract of the actions toolkit used at
source lines 17 to 19: getInput with required set throws
"Input required and not supplied: name" when the input is absent (empty). -/
def getInputRequired (name value : String) : Except String String :=
  if value = "" then Except.error ("Input required and not supplied: " ++ name)
  else Except.ok value

/-- Value of a hexadecimal digit character. -/
def hexDigitVal (c : Char) : Nat :=
  if c.isDigit then c.toNat - 48
  else if 'a' ≤ c ∧ c ≤ 'f' then c.toNat - 87
  else c.toNat - 55

/-- Accumulate a digit list in base b. -/
def digitsVal (b : Nat) (ds : List Char) : Nat :=
  ds.foldl (fun acc c => acc * b + hexDigitVal c) 0

/-- Hexadecimal digit test. -/
def isHexDigit (c : Char) : Bool :=
  c.isDigit || ('a' ≤ c && c ≤ 'f') || ('A' ≤ c && c ≤ 'F')

/-- JavaScript parseInt with no radix argument, as called at source line 40:
skip leading whitespace, read an optional sign, then either a 0x-prefixed
hexadecimal numeral or a decimal numeral; none stands for NaN. -/
def parseIntJS (s : String) : Option Int :=
  let cs := s.toList.dropWhile (fun c => c.isWhitespace)
  let signed : Int × List Char :=
    match cs with
    | '-' :: rest => (-1, rest)
    | '+' :: rest => (1, rest)
    | _ => (1, cs)
  match signed.2 with
  | '0' :: 'x' :: rest =>
      let ds := rest.takeWhile isHexDigit
      if ds.isEmpty then none else some (signed.1 * (digitsVal 16 ds : Nat))
  | '0' :: 'X' :: rest =>
      let ds := rest.takeWhile isHexDigit
      if ds.isEmpty then none else some (signed.1 * (digitsVal 16 ds : Nat))
  | other =>
      let ds := other.takeWhile (fun c => c.isDigit)
      if ds.isEmpty then none else some (signed.1 * (digitsVal 10 ds : Nat))

/-- String of a possibly absent number as a template literal renders it:
undefined prints as "undefined" (source line 113). -/
def jsNumToString : Option Int → String
  | none => "undefined"
  | some n => toString n

/-- String of a possibly absent number as setOutput serializes it:
undefined becomes the empty string (source line 102). -/
def commandValue : Option Int → String
  | none => ""
  | some n => toString n

/-- The hard cap on poll attempts (source line 61). -/
def maxAttempts : Nat := 120

/-- The effective timeout string: the timeout-seconds input, or "3600" when
that input is empty, via JavaScript's or-else on strings (source lines 23
and 24). -/
def effectiveTimeout (t : String) : String :=
  if t = "" then "3600" else t

/-- The SendCommand request built at source lines 33 to 45 from the input
values: the instance id list, the AWS-RunShellScript document, the commands
parameter, the optional workingDirectory parameter (added only when the
working-directory input is truthy, that is non-empty), and the parsed
timeout. -/
def buildCommandParams (instanceId command workingDirectory timeout : String) :
    SendCommandRequest :=
  { InstanceIds := [instanceId]
    DocumentName := "AWS-RunShellScript"
    Parameters :=
      { commands := [command]
        workingDirectory :=
          if workingDirectory ≠ "" then some [workingDirectory] else none }
    TimeoutSeconds := parseIntJS timeout }

/-- The while loop at source lines 63 to 83, with a structural fuel
parameter added for termination.  The loop continues while the status is
InProgress or Pending; its body first throws the client-side timeout error
once attempts reaches maxAttempts, then waits 5 seconds, performs one
GetCommandInvocation call, records the new status and increments attempts.
The loop exits returning the last response together with the final status
and attempt count; exiting with no response recorded models the undefined
dereference that cannot occur from the real entry point.  The fuel-zero
fallback inside the guarded branch is unreachable whenever
maxAttempts - attempts ≤ fuel, which the wrapper pollLoop guarantees. -/
def pollGo (env : Env) (commandId instanceId : String) :
    Nat → String → Nat → Option InvocationResponse →
    List Event × Except String (InvocationResponse × String × Nat)
  | fuel, status, attempts, last =>
    if status = "InProgress" ∨ status = "Pending" then
      if maxAttempts ≤ attempts then
        ([], Except.error "Command execution timeout - exceeded maximum wait time")
      else
        match fuel with
        | 0 => ([], Except.error "Command execution timeout - exceeded maximum wait time")
        | fuel' + 1 =>
          match env.invocation attempts with
          | Except.error e =>
              ([Event.wait 5000, Event.getInvocation commandId instanceId],
               Except.error e)
          | Except.ok resp =>
              let rest := pollGo env commandId instanceId fuel' resp.Status
                (attempts + 1) (some resp)
              (Event.wait 5000 :: Event.getInvocation commandId instanceId ::
                 Event.info ("Command status: " ++ resp.Status) :: rest.1,
               rest.2)
    else
      match last with
      | some resp => ([], Except.ok (resp, status, attempts))
      | none => ([], Except.error "TypeError: lastInvocationResponse is undefined")

/-- The poll loop as entered by run: fuel starts at maxAttempts, which is
enough for every reachable configuration since the guard throws as soon as
attempts reaches maxAttempts. -/
def pollLoop (env : Env) (commandId instanceId status : String)
    (attempts : Nat) (last : Option InvocationResponse) :
    List Event × Except String (InvocationResponse × String × Nat) :=
  pollGo env commandId instanceId maxAttempts status attempts last

/-- The code after the loop, source lines 85 to 119: read stdout, stderr
and the response code from the last response (empty string for an absent
stream), log stdout, signal failure on a non-empty stderr, set the five
outputs, then classify the final status: Failed, TimedOut and Cancelled
each fail with their own message, a non-zero (or absent) response code
fails citing the code, and otherwise the run logs success. -/
def finishRun (commandId status : String) (resp : InvocationResponse) :
    List Event :=
  let stdout := resp.StandardOutputContent.getD ""
  let stderr := resp.StandardErrorContent.getD ""
  let statusCode := resp.ResponseCode
  (if stdout ≠ "" then [Event.info stdout] else [])
  ++ (if stderr ≠ "" then
        [Event.warning stderr, Event.setFailed ("Stderr detected")]
      else [])
  ++ [Event.setOutput ("stdout") stdout,
      Event.setOutput ("stderr") stderr,
      Event.setOutput ("status") status,
      Event.setOutput ("status-code") (commandValue statusCode),
      Event.setOutput ("command-id") commandId]
  ++ (if status = "Failed" then
        [Event.setFailed ("Command execution failed with status: " ++ status)]
      else if status = "TimedOut" then
        [Event.setFailed ("Command execution timed out")]
      else if status = "Cancelled" then
        [Event.setFailed ("Command execution was cancelled")]
      else if statusCode ≠ some 0 then
        [Event.setFailed ("Command exited with non-zero status code: " ++
           jsNumToString statusCode ++ ", status: " ++ status)]
      else
        [Event.info ("Command completed successfully with status: " ++ status)])

/-- The body of the try block of run (source lines 15 to 119): events
performed so far, paired with the thrown error message if a throw escapes
to the catch block. -/
def runBody (inp : Inputs) (env : Env) : List Event × Option String :=
  match getInputRequired "instance-id" inp.instanceId with
  | Except.error e => ([], some e)
  | Except.ok instanceId =>
  match getInputRequired "region" inp.region with
  | Except.error e => ([], some e)
  | Except.ok region =>
  match getInputRequired "command" inp.command with
  | Except.error e => ([], some e)
  | Except.ok command =>
    let workingDirectory := inp.workingDirectory
    let timeout := effectiveTimeout inp.timeoutSeconds
    let commandParams :=
      buildCommandParams instanceId command workingDirectory timeout
    let pre : List Event :=
      [Event.info ("Running command on instance " ++ instanceId ++
         " in region " ++ region),
       Event.info ("Command: " ++ command),
       Event.info ("Sending command to SSM..."),
       Event.sendCommand commandParams]
    match env.sendResult commandParams with
    | Except.error e => (pre, some e)
    | Except.ok commandId =>
      let pre2 := pre ++
        [Event.info ("Command sent with ID: " ++ commandId),
         Event.info ("Waiting for command to complete...")]
      let polled := pollLoop env commandId instanceId "InProgress" 0 none
      match polled.2 with
      | Except.error e => (pre2 ++ polled.1, some e)
      | Except.ok (resp, status, _) =>
          (pre2 ++ polled.1 ++ finishRun commandId status resp, none)

/-- The whole of run, including the catch block (source lines 120 to 123)
which reports a thrown error through setFailed. -/
def run (inp : Inputs) (env : Env) : List Event :=
  match runBody inp env with
  | (t, some m) => t ++ [Event.setFailed m]
  | (t, none) => t

/-- Test for a setFailed event. -/
def isSetFailed : Event → Bool
  | Event.setFailed _ => true
  | _ => false

/-- Whether the run was marked failed: at least one setFailed event. -/
def failedB (t : List Event) : Bool :=
  t.any isSetFailed

/-- Test for a GetCommandInvocation call. -/
def isCheck : Event → Bool
  | Event.getInvocation _ _ => true
  | _ => false

/-- Number of status checks performed. -/
def numChecks (t : List Event) : Nat :=
  t.countP isCheck

/-- Test for a SendCommand call. -/
def isSend : Event → Bool
  | Event.sendCommand _ => true
  | _ => false

/-- Number of SendCommand calls performed. -/
def numSends (t : List Event) : Nat :=
  t.countP isSend

/-- Test for a setOutput assignment. -/
def isOutput : Event → Bool
  | Event.setOutput _ _ => true
  | _ => false

/-- Number of setOutput assignments performed. -/
def numOutputs (t : List Event) : Nat :=
  t.countP isOutput

/-- The request run sends for given inputs. -/
def reqOf (inp : Inputs) : SendCommandRequest :=
  buildCommandParams inp.instanceId inp.command inp.workingDirectory
    (effectiveTimeout inp.timeoutSeconds)

/-- A valid concrete input record. -/
def inp0 : Inputs :=
  { instanceId := "i-0abc"
    region := "us-east-1"
    command := "ls"
    workingDirectory := ""
    timeoutSeconds := "" }

/-- A reply whose status is InProgress. -/
def respIP : InvocationResponse :=
  { Status := "InProgress", ResponseCode := some 0
    StandardOutputContent := none, StandardErrorContent := none }

/-- A reply whose status is Delayed, with a clean exit code and no output. -/
def respDelayed : InvocationResponse :=
  { Status := "Delayed", ResponseCode := some 0
    StandardOutputContent := none, StandardErrorContent := none }

/-- An environment whose every status check reports Delayed. -/
def envDelayed : Env :=
  { sendResult := fun _ => Except.ok "cid-0"
    invocation := fun _ => Except.ok respDelayed }

/-- An environment reporting InProgress for the first 119 checks and
Delayed from the 120th check on. -/
def envMixed : Env :=
  { sendResult := fun _ => Except.ok "cid-0"
    invocation := fun n => Except.ok (if n < 119 then respIP else respDelayed) }

/-- Whether the status of every one of the 120 envMixed replies lies
outside the four terminal states Success, Failed, Cancelled, TimedOut. -/
def mixedNonTerminalB : Bool :=
  (List.range 120).all fun n =>
    match envMixed.invocation n with
    | Except.ok r => decide (r.Status ≠ "Success" ∧ r.Status ≠ "Failed" ∧
        r.Status ≠ "Cancelled" ∧ r.Status ≠ "TimedOut")
    | Except.error _ => false

/-- An environment whose every status check reports InProgress. -/
def envInProgress : Env :=
  { sendResult := fun _ => Except.ok "cid-0"
    invocation := fun _ => Except.ok respIP }

/-- An environment that rejects the submission. -/
def envReject : Env :=
  { sendResult := fun _ => Except.error "An error occurred: InvalidInstanceId"
    invocation := fun _ => Except.error "unused" }

/-- A reply with terminal state Success, exit code 0, some stdout and no
stderr field. -/
def respSuccess : InvocationResponse :=
  { Status := "Success", ResponseCode := some 0
    StandardOutputContent := some "hello", StandardErrorContent := none }

/-- An environment whose first status check reports respSuccess. -/
def envSuccess : Env :=
  { sendResult := fun _ => Except.ok "cid-0"
    invocation := fun _ => Except.ok respSuccess }

/-- A reply with terminal state Success but exit code 2. -/
def respNonZero : InvocationResponse :=
  { Status := "Success", ResponseCode := some 2
    StandardOutputContent := none, StandardErrorContent := none }

/-- An environment whose first status check reports respNonZero. -/
def envNonZero : Env :=
  { sendResult := fun _ => Except.ok "cid-0"
    invocation := fun _ => Except.ok respNonZero }

/-- A reply with terminal state Failed and exit code 1. -/
def respFailed : InvocationResponse :=
  { Status := "Failed", ResponseCode := some 1
    StandardOutputContent := some "", StandardErrorContent := some "" }

/-- An environment whose first status check reports respFailed. -/
def envFailed : Env :=
  { sendResult := fun _ => Except.ok "cid-0"
    invocation := fun _ => Except.ok respFailed }

/-- A reply with terminal state Success, exit code 0 and non-empty
stderr. -/
def respStderr : InvocationResponse :=
  { Status := "Success", ResponseCode := some 0
    StandardOutputContent := none
    StandardErrorContent := some "warning: something" }

/-- An environment whose first status check reports respStderr. -/
def envStderr : Env :=
  { sendResult := fun _ => Except.ok "cid-0"
    invocation := fun _ => Except.ok respStderr }

/-- A reply with terminal state Success whose output and error streams are
both absent. -/
def respNoContent : InvocationResponse :=
  { Status := "Success", ResponseCode := some 0
    StandardOutputContent := none, StandardErrorContent := none }

/-- An environment whose first status check reports respNoContent. -/
def envNoContent : Env :=
  { sendResult := fun _ => Except.ok "cid-0"
    invocation := fun _ => Except.ok respNoContent }

/-- A concrete input record whose command input is missing. -/
def inpNoCommand : Inputs :=
  { instanceId := "i-0abc"
    region := "us-east-1"
    command := ""
    workingDirectory := ""
    timeoutSeconds := "60" }

/-- The events performed up to and including the SendCommand call. -/
def preSend (inp : Inputs) : List Event :=
  [Event.info ("Running command on instance " ++ inp.instanceId ++
     " in region " ++ inp.region),
   Event.info ("Command: " ++ inp.command),
   Event.info ("Sending command to SSM..."),
   Event.sendCommand (reqOf inp)]

/-- The events performed before the first poll iteration when submission
returned the command id cid. -/
def preEvents (inp : Inputs) (cid : String) : List Event :=
  preSend inp ++
  [Event.info ("Command sent with ID: " ++ cid),
   Event.info ("Waiting for command to complete...")]

/-- Events a poll iteration can produce: log lines, waits and status
checks. -/
def isPollEvent : Event → Bool
  | Event.wait _ => true
  | Event.getInvocation _ _ => true
  | Event.info _ => true
  | _ => false

theorem pollGo_zero (env : Env) (cid iid s : String) (a : Nat)
    (last : Option InvocationResponse) :
    pollGo env cid iid 0 s a last =
      if s = "InProgress" ∨ s = "Pending" then
        ([], Except.error "Command execution timeout - exceeded maximum wait time")
      else
        match last with
        | some resp => ([], Except.ok (resp, s, a))
        | none => ([], Except.error "TypeError: lastInvocationResponse is undefined") := by
  have h : pollGo env cid iid 0 s a last =
      (if s = "InProgress" ∨ s = "Pending" then
        if maxAttempts ≤ a then
          ([], Except.error "Command execution timeout - exceeded maximum wait time")
        else
          ([], Except.error "Command execution timeout - exceeded maximum wait time")
      else
        match last with
        | some resp => ([], Except.ok (resp, s, a))
        | none => ([], Except.error "TypeError: lastInvocationResponse is undefined")) := rfl
  rw [h, ite_self]

theorem pollGo_succ (env : Env) (cid iid s : String) (f a : Nat)
    (last : Option InvocationResponse) :
    pollGo env cid iid (f + 1) s a last =
      if s = "InProgress" ∨ s = "Pending" then
        if maxAttempts ≤ a then
          ([], Except.error "Command execution timeout - exceeded maximum wait time")
        else
          match env.invocation a with
          | Except.error e =>
              ([Event.wait 5000, Event.getInvocation cid iid], Except.error e)
          | Except.ok resp =>
              let rest := pollGo env cid iid f resp.Status (a + 1) (some resp)
              (Event.wait 5000 :: Event.getInvocation cid iid ::
                 Event.info ("Command status: " ++ resp.Status) :: rest.1,
               rest.2)
      else
        match last with
        | some resp => ([], Except.ok (resp, s, a))
        | none => ([], Except.error "TypeError: lastInvocationResponse is undefined") := rfl

theorem pollGo_events (env : Env) (cid iid : String) :
    ∀ (fuel : Nat) (s : String) (a : Nat) (last : Option InvocationResponse)
      (e : Event), e ∈ (pollGo env cid iid fuel s a last).1 → isPollEvent e = true := by
  intro fuel
  induction fuel with
  | zero =>
    intro s a last e he
    rw [pollGo_zero] at he
    split at he
    · simp at he
    · cases last <;> simp at he
  | succ f ih =>
    intro s a last e he
    rw [pollGo_succ] at he
    split at he
    · split at he
      · simp at he
      · split at he
        · simp only [List.mem_cons] at he
          rcases he with rfl | rfl | he
          · rfl
          · rfl
          · simp at he
        · simp only [List.mem_cons] at he
          rcases he with rfl | rfl | rfl | he
          · rfl
          · rfl
          · rfl
          · exact ih _ _ _ e he
    · cases last <;> simp at he

theorem pollLoop_no_setFailed (env : Env) (cid iid s : String) (a : Nat)
    (last : Option InvocationResponse) (m : String) :
    Event.setFailed m ∉ (pollLoop env cid iid s a last).1 := by
  intro hm
  have h := pollGo_events env cid iid maxAttempts s a last _ hm
  simp [isPollEvent] at h

theorem pollLoop_countP_setFailed (env : Env) (cid iid s : String) (a : Nat)
    (last : Option InvocationResponse) :
    (pollLoop env cid iid s a last).1.countP isSetFailed = 0 := by
  refine List.countP_eq_zero.mpr ?_
  intro e he
  have h := pollGo_events env cid iid maxAttempts s a last e he
  cases e <;> simp_all [isPollEvent, isSetFailed]

theorem pollLoop_countP_output (env : Env) (cid iid s : String) (a : Nat)
    (last : Option InvocationResponse) :
    (pollLoop env cid iid s a last).1.countP isOutput = 0 := by
  refine List.countP_eq_zero.mpr ?_
  intro e he
  have h := pollGo_events env cid iid maxAttempts s a last e he
  cases e <;> simp_all [isPollEvent, isOutput]

theorem pollGo_checks_le (env : Env) (cid iid : String) :
    ∀ (fuel : Nat) (s : String) (a : Nat) (last : Option InvocationResponse),
      numChecks (pollGo env cid iid fuel s a last).1 ≤ fuel := by
  intro fuel
  induction fuel with
  | zero =>
    intro s a last
    rw [numChecks, pollGo_zero]
    split
    · simp
    · cases last <;> simp
  | succ f ih =>
    intro s a last
    rw [numChecks, pollGo_succ]
    split
    · split
      · simp
      · split
        · simp [isCheck, List.countP_cons]
        · rename_i resp _
          have hle := ih resp.Status (a + 1) (some resp)
          rw [numChecks] at hle
          simp [List.countP_cons, isCheck]
          omega
    · cases last <;> simp

theorem run_missing_instance (inp : Inputs) (env : Env)
    (h : inp.instanceId = "") :
    run inp env = [Event.setFailed ("Input required and not supplied: instance-id")] := by
  simp [run, runBody, getInputRequired, h]

theorem run_missing_region (inp : Inputs) (env : Env)
    (h1 : inp.instanceId ≠ "") (h : inp.region = "") :
    run inp env = [Event.setFailed ("Input required and not supplied: region")] := by
  simp [run, runBody, getInputRequired, h1, h]

theorem run_missing_command (inp : Inputs) (env : Env)
    (h1 : inp.instanceId ≠ "") (h2 : inp.region ≠ "") (h : inp.command = "") :
    run inp env = [Event.setFailed ("Input required and not supplied: command")] := by
  simp [run, runBody, getInputRequired, h1, h2, h]

theorem run_send_error (inp : Inputs) (env : Env) (e : String)
    (h1 : inp.instanceId ≠ "") (h2 : inp.region ≠ "") (h3 : inp.command ≠ "")
    (hsend : env.sendResult (reqOf inp) = Except.error e) :
    run inp env = preSend inp ++ [Event.setFailed e] := by
  have hs : env.sendResult (buildCommandParams inp.instanceId inp.command
      inp.workingDirectory (effectiveTimeout inp.timeoutSeconds)) = Except.error e := by
    simpa [reqOf, buildCommandParams] using hsend
  simp [run, runBody, getInputRequired, h1, h2, h3, hs, preSend, reqOf]

theorem run_poll_error (inp : Inputs) (env : Env) (cid m : String)
    (evs : List Event)
    (h1 : inp.instanceId ≠ "") (h2 : inp.region ≠ "") (h3 : inp.command ≠ "")
    (hsend : env.sendResult (reqOf inp) = Except.ok cid)
    (hpoll : pollLoop env cid inp.instanceId "InProgress" 0 none =
      (evs, Except.error m)) :
    run inp env = preEvents inp cid ++ evs ++ [Event.setFailed m] := by
  have hs : env.sendResult (buildCommandParams inp.instanceId inp.command
      inp.workingDirectory (effectiveTimeout inp.timeoutSeconds)) = Except.ok cid := by
    simpa [reqOf, buildCommandParams] using hsend
  simp [run, runBody, getInputRequired, h1, h2, h3, hs, hpoll, preEvents, preSend, reqOf]

theorem run_poll_ok (inp : Inputs) (env : Env) (cid status : String)
    (evs : List Event) (resp : InvocationResponse) (n : Nat)
    (h1 : inp.instanceId ≠ "") (h2 : inp.region ≠ "") (h3 : inp.command ≠ "")
    (hsend : env.sendResult (reqOf inp) = Except.ok cid)
    (hpoll : pollLoop env cid inp.instanceId "InProgress" 0 none =
      (evs, Except.ok (resp, status, n))) :
    run inp env = preEvents inp cid ++ evs ++ finishRun cid status resp := by
  have hs : env.sendResult (buildCommandParams inp.instanceId inp.command
      inp.workingDirectory (effectiveTimeout inp.timeoutSeconds)) = Except.ok cid := by
    simpa [reqOf, buildCommandParams] using hsend
  simp [run, runBody, getInputRequired, h1, h2, h3, hs, hpoll, preEvents, preSend, reqOf]

theorem preEvents_no_setFailed (inp : Inputs) (cid m : String) :
    Event.setFailed m ∉ preEvents inp cid := by
  simp [preEvents, preSend]

theorem preEvents_counts (inp : Inputs) (cid : String) :
    numChecks (preEvents inp cid) = 0 ∧ numSends (preEvents inp cid) = 1 ∧
      numOutputs (preEvents inp cid) = 0 := by
  simp [preEvents, preSend, numChecks, numSends, numOutputs, List.countP_cons,
    isCheck, isSend, isOutput]

theorem finishRun_failedB (cid status : String) (resp : InvocationResponse) :
    failedB (finishRun cid status resp) = false ↔
      (resp.ResponseCode = some 0 ∧ status ≠ "Failed" ∧ status ≠ "TimedOut" ∧
       status ≠ "Cancelled" ∧ resp.StandardErrorContent.getD "" = "") := by
  simp only [finishRun, failedB]
  split_ifs <;>
    simp_all [isSetFailed, List.any_append, List.any_cons]

theorem finishRun_outputs (cid status : String) (resp : InvocationResponse) :
    Event.setOutput ("stdout") (resp.StandardOutputContent.getD "") ∈
        finishRun cid status resp ∧
      Event.setOutput ("stderr") (resp.StandardErrorContent.getD "") ∈
        finishRun cid status resp ∧
      Event.setOutput ("status") status ∈ finishRun cid status resp ∧
      Event.setOutput ("status-code") (commandValue resp.ResponseCode) ∈
        finishRun cid status resp ∧
      Event.setOutput ("command-id") cid ∈ finishRun cid status resp := by
  simp only [finishRun]
  split_ifs <;> simp

theorem finishRun_counts (cid status : String) (resp : InvocationResponse) :
    numChecks (finishRun cid status resp) = 0 ∧
      numSends (finishRun cid status resp) = 0 := by
  simp only [finishRun, numChecks, numSends]
  split_ifs <;>
    simp [List.countP_cons, isCheck, isSend]

theorem finishRun_stderr_failed (cid status : String) (resp : InvocationResponse)
    (h : resp.StandardErrorContent.getD "" ≠ "") :
    Event.setFailed ("Stderr detected") ∈ finishRun cid status resp := by
  simp only [finishRun]
  split_ifs <;> simp_all

theorem finishRun_failed_msg (cid status : String) (resp : InvocationResponse)
    (h : status = "Failed") :
    Event.setFailed ("Command execution failed with status: " ++ status) ∈
      finishRun cid status resp := by
  subst h
  simp only [finishRun]
  split_ifs <;> simp_all

theorem finishRun_nonzero_msg (cid status : String) (resp : InvocationResponse)
    (h1 : status ≠ "Failed") (h2 : status ≠ "TimedOut") (h3 : status ≠ "Cancelled")
    (hc : resp.ResponseCode ≠ some 0) :
    Event.setFailed ("Command exited with non-zero status code: " ++
        jsNumToString resp.ResponseCode ++ ", status: " ++ status) ∈
      finishRun cid status resp := by
  simp only [finishRun]
  split_ifs <;> simp_all
theorem pollLoop_any_setFailed (env : Env) (cid iid s : String) (a : Nat)
    (last : Option InvocationResponse) :
    (pollLoop env cid iid s a last).1.any isSetFailed = false := by
  rw [List.any_eq_false]
  intro e he
  have h := pollGo_events env cid iid maxAttempts s a last e he
  cases e <;> simp_all [isPollEvent, isSetFailed]

theorem data_append_eq (x y : String) : (x ++ y).data = x.data ++ y.data := by
  cases x; cases y; rfl

theorem stderr_msg_ne_nonzero_msg (s t u : String) :
    ("Stderr detected" : String) ≠
      "Command exited with non-zero status code: " ++ s ++ t ++ u := by
  intro h
  have hd := congrArg String.data h
  rw [data_append_eq, data_append_eq, data_append_eq] at hd
  have hlen := congrArg List.length hd
  rw [List.length_append, List.length_append, List.length_append] at hlen
  have ha : ("Command exited with non-zero status code: ").data.length = 42 := by
    decide
  have hb : ("Stderr detected").data.length = 15 := by decide
  omega

theorem finishRun_no_stderr_msg (cid status : String) (resp : InvocationResponse)
    (h : resp.StandardErrorContent.getD "" = "") :
    Event.setFailed ("Stderr detected") ∉ finishRun cid status resp := by
  intro hmem
  simp only [finishRun] at hmem
  split_ifs at hmem <;>
    simp_all [stderr_msg_ne_nonzero_msg]

/-- C1: after the poll loop ends at a terminal state, the run succeeds if
and only if the exit code is 0, the state is none of Failed, TimedOut and
Cancelled, and the captured stderr is empty; a Failed state produces a
failure message naming the Failed status regardless of the exit code, and
a non-zero exit code with state Success produces a failure message citing
that code. -/
theorem c1_success_iff (inp : Inputs) (env : Env) (cid status : String)
    (evs : List Event) (resp : InvocationResponse) (n : Nat)
    (h1 : inp.instanceId ≠ "") (h2 : inp.region ≠ "") (h3 : inp.command ≠ "")
    (hsend : env.sendResult (reqOf inp) = Except.ok cid)
    (hpoll : pollLoop env cid inp.instanceId "InProgress" 0 none =
      (evs, Except.ok (resp, status, n))) :
    (failedB (run inp env) = false ↔
      (resp.ResponseCode = some 0 ∧ status ≠ "Failed" ∧ status ≠ "TimedOut" ∧
       status ≠ "Cancelled" ∧ resp.StandardErrorContent.getD "" = "")) ∧
    (status = "Failed" →
      Event.setFailed ("Command execution failed with status: " ++ status) ∈
        run inp env) ∧
    (∀ c : Int, status = "Success" → resp.ResponseCode = some c → c ≠ 0 →
      Event.setFailed ("Command exited with non-zero status code: " ++
        toString c ++ ", status: " ++ status) ∈ run inp env) := by
  have htr := run_poll_ok inp env cid status evs resp n h1 h2 h3 hsend hpoll
  refine ⟨?_, ?_, ?_⟩
  · rw [htr, failedB, List.any_append, List.any_append]
    have hpre : (preEvents inp cid).any isSetFailed = false := by
      simp [preEvents, preSend, isSetFailed]
    have hevs : evs.any isSetFailed = false := by
      have h := pollLoop_any_setFailed env cid inp.instanceId "InProgress" 0 none
      rw [hpoll] at h
      exact h
    rw [hpre, hevs]
    simpa [failedB] using finishRun_failedB cid status resp
  · intro hF
    rw [htr]
    simp only [List.mem_append]
    exact Or.inr (finishRun_failed_msg cid status resp hF)
  · intro c hS hcode hc
    rw [htr]
    have hne : resp.ResponseCode ≠ some 0 := by
      rw [hcode]
      simp [hc]
    have hmem := finishRun_nonzero_msg cid status resp
      (by rw [hS]; decide) (by rw [hS]; decide) (by rw [hS]; decide) hne
    rw [hcode] at hmem
    simp only [jsNumToString] at hmem
    simp only [List.mem_append]
    exact Or.inr hmem

/-- Witness for c1_success_iff: a clean Success run is not failed, and a
Success run with exit code 2 is failed with the message citing 2. -/
theorem c1_success_iff_witness :
    failedB (run inp0 envSuccess) = false ∧
    Event.setFailed ("Command exited with non-zero status code: " ++
      toString (2 : Int) ++ ", status: " ++ "Success") ∈ run inp0 envNonZero := by
  constructor
  · exact (c1_success_iff inp0 envSuccess "cid-0" "Success"
      [Event.wait 5000, Event.getInvocation "cid-0" "i-0abc",
       Event.info ("Command status: " ++ "Success")] respSuccess 1
      (by decide) (by decide) (by decide) rfl rfl).1.mpr (by decide)
  · exact (c1_success_iff inp0 envNonZero "cid-0" "Success"
      [Event.wait 5000, Event.getInvocation "cid-0" "i-0abc",
       Event.info ("Command status: " ++ "Success")] respNonZero 1
      (by decide) (by decide) (by decide) rfl rfl).2.2 2 rfl rfl (by decide)

/-- C2 (amended): the poll loop continues exactly on the status values
InProgress and Pending: on every other reported status — Delayed included —
it stops and returns the last response, and on InProgress or Pending below
the attempt cap it performs a further status check. -/
theorem c2_loop_continue_iff (env : Env) (cid iid status : String) (a : Nat)
    (resp : InvocationResponse) :
    (status ≠ "InProgress" ∧ status ≠ "Pending" →
      pollLoop env cid iid status a (some resp) =
        ([], Except.ok (resp, status, a))) ∧
    ((status = "InProgress" ∨ status = "Pending") → a < maxAttempts →
      ∃ rest r, pollLoop env cid iid status a (some resp) =
        (Event.wait 5000 :: Event.getInvocation cid iid :: rest, r)) := by
  constructor
  · intro h
    rw [pollLoop, show maxAttempts = 119 + 1 from rfl, pollGo_succ]
    simp [h.1, h.2]
  · intro hc hlt
    rw [pollLoop, show maxAttempts = 119 + 1 from rfl, pollGo_succ,
      if_pos hc, if_neg (by omega : ¬ maxAttempts ≤ a)]
    cases hi : env.invocation a with
    | error e => exact ⟨[], Except.error e, rfl⟩
    | ok resp2 => exact ⟨_, _, rfl⟩

/-- Witness for c2_loop_continue_iff: a Delayed status stops the loop at
once, and a Pending status below the cap performs another check. -/
theorem c2_loop_continue_iff_witness :
    pollLoop envDelayed "cid-0" "i-0abc" "Delayed" 3 (some respDelayed) =
      ([], Except.ok (respDelayed, "Delayed", 3)) ∧
    (∃ rest r, pollLoop envDelayed "cid-0" "i-0abc" "Pending" 0 (some respDelayed) =
      (Event.wait 5000 :: Event.getInvocation "cid-0" "i-0abc" :: rest, r)) := by
  exact ⟨(c2_loop_continue_iff envDelayed "cid-0" "i-0abc" "Delayed" 3
      respDelayed).1 (by decide),
    (c2_loop_continue_iff envDelayed "cid-0" "i-0abc" "Pending" 0
      respDelayed).2 (by decide) (by decide)⟩

/-- C2 counterexample: every status check of envDelayed reports Delayed, a
status the claim lists as non-terminal, yet the run stops after a single
check and is not failed, instead of continuing to poll. -/
theorem c2_cex_delayed :
    numChecks (run inp0 envDelayed) = 1 ∧
      failedB (run inp0 envDelayed) = false := by
  decide

/-- C5: a run whose poll loop ends with terminal state Success and exit
code 0 but a non-empty captured stderr is marked failed, with the stderr
failure message. -/
theorem c5_stderr_fails (inp : Inputs) (env : Env) (cid : String)
    (evs : List Event) (resp : InvocationResponse) (n : Nat)
    (h1 : inp.instanceId ≠ "") (h2 : inp.region ≠ "") (h3 : inp.command ≠ "")
    (hsend : env.sendResult (reqOf inp) = Except.ok cid)
    (hpoll : pollLoop env cid inp.instanceId "InProgress" 0 none =
      (evs, Except.ok (resp, "Success", n)))
    (hcode : resp.ResponseCode = some 0)
    (herr : resp.StandardErrorContent.getD "" ≠ "") :
    failedB (run inp env) = true ∧
      Event.setFailed ("Stderr detected") ∈ run inp env := by
  have htr := run_poll_ok inp env cid "Success" evs resp n h1 h2 h3 hsend hpoll
  have hmem := finishRun_stderr_failed cid "Success" resp herr
  have hmem2 : Event.setFailed ("Stderr detected") ∈ run inp env := by
    rw [htr]
    simp only [List.mem_append]
    exact Or.inr hmem
  refine ⟨?_, hmem2⟩
  rw [failedB, List.any_eq_true]
  exact ⟨Event.setFailed ("Stderr detected"), hmem2, rfl⟩

/-- Witness for c5_stderr_fails: a Success, exit code 0 run with stderr
"warning: something" is failed. -/
theorem c5_stderr_fails_witness :
    failedB (run inp0 envStderr) = true ∧
      Event.setFailed ("Stderr detected") ∈ run inp0 envStderr := by
  exact c5_stderr_fails inp0 envStderr "cid-0"
    [Event.wait 5000, Event.getInvocation "cid-0" "i-0abc",
     Event.info ("Command status: " ++ "Success")] respStderr 1
    (by decide) (by decide) (by decide) rfl rfl rfl (by decide)
theorem pollGo_cap (env : Env) (cid iid : String)
    (hall : ∀ n, n < maxAttempts → ∃ r, env.invocation n = Except.ok r ∧
      (r.Status = "InProgress" ∨ r.Status = "Pending")) :
    ∀ (fuel : Nat) (s : String) (a : Nat) (last : Option InvocationResponse),
      (s = "InProgress" ∨ s = "Pending") → a + fuel = maxAttempts →
      (pollGo env cid iid fuel s a last).2 =
          Except.error "Command execution timeout - exceeded maximum wait time" ∧
        numChecks (pollGo env cid iid fuel s a last).1 = fuel := by
  intro fuel
  induction fuel with
  | zero =>
    intro s a last hs ha
    rw [pollGo_zero, if_pos hs]
    simp [numChecks]
  | succ f ih =>
    intro s a last hs ha
    obtain ⟨r, hr, hrs⟩ := hall a (by omega)
    have hrec := ih r.Status (a + 1) (some r) hrs (by omega)
    rw [pollGo_succ, if_pos hs, if_neg (by omega : ¬ maxAttempts ≤ a), hr]
    constructor
    · exact hrec.1
    · show numChecks (Event.wait 5000 :: Event.getInvocation cid iid ::
        Event.info ("Command status: " ++ r.Status) ::
        (pollGo env cid iid f r.Status (a + 1) (some r)).1) = f + 1
      have h2 := hrec.2
      rw [numChecks] at h2 ⊢
      simp [List.countP_cons, isCheck]
      omega

/-- C3 (amended): when every status check up to the cap reports InProgress
or Pending — the statuses on which the loop continues — the run fails with
the client-side timeout message, which differs from the remote TimedOut
message, after exactly 120 checks; the bound does not depend on the
timeout-seconds input, which the hypotheses leave unconstrained. -/
theorem c3_cap_timeout (inp : Inputs) (env : Env) (cid : String)
    (h1 : inp.instanceId ≠ "") (h2 : inp.region ≠ "") (h3 : inp.command ≠ "")
    (hsend : ∀ r, env.sendResult r = Except.ok cid)
    (hall : ∀ n, n < maxAttempts → ∃ r, env.invocation n = Except.ok r ∧
      (r.Status = "InProgress" ∨ r.Status = "Pending")) :
    Event.setFailed ("Command execution timeout - exceeded maximum wait time") ∈
        run inp env ∧
      numChecks (run inp env) = 120 ∧
      Event.setFailed ("Command execution timed out") ∉ run inp env := by
  have hcap := pollGo_cap env cid inp.instanceId hall maxAttempts "InProgress" 0
    none (Or.inl rfl) (by omega)
  have hpoll : pollLoop env cid inp.instanceId "InProgress" 0 none =
      ((pollLoop env cid inp.instanceId "InProgress" 0 none).1,
        Except.error "Command execution timeout - exceeded maximum wait time") := by
    rw [pollLoop, ← hcap.1]
  have htr := run_poll_error inp env cid _ _ h1 h2 h3 (hsend _) hpoll
  refine ⟨?_, ?_, ?_⟩
  · rw [htr]
    simp
  · rw [htr, numChecks, List.countP_append, List.countP_append]
    have ha := (preEvents_counts inp cid).1
    rw [numChecks] at ha
    have hb : List.countP isCheck
        (pollLoop env cid inp.instanceId "InProgress" 0 none).1 = maxAttempts := by
      have h2 := hcap.2
      rw [numChecks] at h2
      exact h2
    simp [ha, hb, isCheck, List.countP_cons, maxAttempts]
  · rw [htr]
    intro hmem
    simp only [List.mem_append, List.mem_singleton] at hmem
    rcases hmem with (hmem | hmem) | hmem
    · exact preEvents_no_setFailed inp cid _ hmem
    · have h := pollGo_events env cid inp.instanceId maxAttempts "InProgress" 0
        none _ hmem
      simp [isPollEvent] at h
    · simp at hmem

/-- Witness for c3_cap_timeout: a service that always reports InProgress
drives the run into the client-side timeout after 120 checks. -/
theorem c3_cap_timeout_witness :
    Event.setFailed ("Command execution timeout - exceeded maximum wait time") ∈
        run inp0 envInProgress ∧
      numChecks (run inp0 envInProgress) = 120 ∧
      Event.setFailed ("Command execution timed out") ∉ run inp0 envInProgress := by
  exact c3_cap_timeout inp0 envInProgress "cid-0" (by decide) (by decide)
    (by decide) (fun r => rfl)
    (fun n _ => ⟨respIP, rfl, Or.inl rfl⟩)

set_option maxRecDepth 20000 in
/-- C3 counterexample: with envMixed every one of 120 consecutive status
checks reports a status outside Success, Failed, Cancelled and TimedOut —
InProgress 119 times, then Delayed — yet the run is not failed at all: the
Delayed reply exits the loop normally, so no timeout-specific failure is
raised even though the status never became terminal in the sense of the
claim. -/
theorem c3_cex_nonterminal :
    numChecks (run inp0 envMixed) = 120 ∧
      failedB (run inp0 envMixed) = false ∧
      mixedNonTerminalB = true := by
  refine ⟨by decide, by decide, by decide⟩

/-- C4 (amended): whenever the poll loop exits at a reported status, all
five named outputs are set, whether the run then succeeds or fails; but a
run whose submission is rejected, or whose poll loop ends in a thrown
error — the 120-attempt cap included — sets no outputs at all. -/
theorem c4_outputs (inp : Inputs) (env : Env) (cid : String)
    (h1 : inp.instanceId ≠ "") (h2 : inp.region ≠ "") (h3 : inp.command ≠ "") :
    (∀ (evs : List Event) (resp : InvocationResponse) (status : String) (n : Nat),
      env.sendResult (reqOf inp) = Except.ok cid →
      pollLoop env cid inp.instanceId "InProgress" 0 none =
        (evs, Except.ok (resp, status, n)) →
      Event.setOutput ("stdout") (resp.StandardOutputContent.getD "") ∈ run inp env ∧
      Event.setOutput ("stderr") (resp.StandardErrorContent.getD "") ∈ run inp env ∧
      Event.setOutput ("status") status ∈ run inp env ∧
      Event.setOutput ("status-code") (commandValue resp.ResponseCode) ∈ run inp env ∧
      Event.setOutput ("command-id") cid ∈ run inp env) ∧
    (∀ e, env.sendResult (reqOf inp) = Except.error e →
      numOutputs (run inp env) = 0) ∧
    (∀ (evs : List Event) (m : String),
      env.sendResult (reqOf inp) = Except.ok cid →
      pollLoop env cid inp.instanceId "InProgress" 0 none =
        (evs, Except.error m) →
      numOutputs (run inp env) = 0) := by
  refine ⟨?_, ?_, ?_⟩
  · intro evs resp status n hsend hpoll
    have htr := run_poll_ok inp env cid status evs resp n h1 h2 h3 hsend hpoll
    have ho := finishRun_outputs cid status resp
    rw [htr]
    simp only [List.mem_append]
    exact ⟨Or.inr ho.1, Or.inr ho.2.1, Or.inr ho.2.2.1, Or.inr ho.2.2.2.1,
      Or.inr ho.2.2.2.2⟩
  · intro e hsend
    rw [run_send_error inp env e h1 h2 h3 hsend]
    simp [preSend, numOutputs, List.countP_cons, isOutput]
  · intro evs m hsend hpoll
    have htr := run_poll_error inp env cid m evs h1 h2 h3 hsend hpoll
    rw [htr, numOutputs, List.countP_append, List.countP_append]
    have ha := (preEvents_counts inp cid).2.2
    rw [numOutputs] at ha
    have hb := pollLoop_countP_output env cid inp.instanceId "InProgress" 0 none
    rw [hpoll] at hb
    simp [ha, hb, isOutput, List.countP_cons]

/-- Witness for c4_outputs: a run ending in state Failed is failed yet has
its status and command-id outputs set. -/
theorem c4_outputs_witness :
    Event.setOutput ("status") ("Failed") ∈ run inp0 envFailed ∧
      Event.setOutput ("command-id") ("cid-0") ∈ run inp0 envFailed ∧
      failedB (run inp0 envFailed) = true := by
  have h := (c4_outputs inp0 envFailed "cid-0" (by decide) (by decide)
      (by decide)).1
    [Event.wait 5000, Event.getInvocation "cid-0" "i-0abc",
     Event.info ("Command status: " ++ "Failed")] respFailed "Failed" 1 rfl rfl
  exact ⟨h.2.2.1, h.2.2.2.2, by decide⟩

/-- C4 counterexample: a run whose submission is rejected is failed with no
output set at all, although the claim requires all five outputs to be set
for every run, submission rejections included. -/
theorem c4_cex_reject :
    failedB (run inp0 envReject) = true ∧
      numOutputs (run inp0 envReject) = 0 := by
  refine ⟨by decide, by decide⟩

/-- C6: a missing required input — instance-id, region or command — fails
the run with no remote call at all: no SendCommand and no
GetCommandInvocation is performed. -/
theorem c6_missing_input (inp : Inputs) (env : Env)
    (h : inp.instanceId = "" ∨ inp.region = "" ∨ inp.command = "") :
    failedB (run inp env) = true ∧ numSends (run inp env) = 0 ∧
      numChecks (run inp env) = 0 := by
  by_cases h1 : inp.instanceId = ""
  · rw [run_missing_instance inp env h1]
    refine ⟨rfl, rfl, rfl⟩
  · by_cases h2 : inp.region = ""
    · rw [run_missing_region inp env h1 h2]
      refine ⟨rfl, rfl, rfl⟩
    · have h3 : inp.command = "" := by tauto
      rw [run_missing_command inp env h1 h2 h3]
      refine ⟨rfl, rfl, rfl⟩

/-- Witness for c6_missing_input: a run with a missing command input makes
no remote call and is failed. -/
theorem c6_missing_input_witness :
    failedB (run inpNoCommand envSuccess) = true ∧
      numSends (run inpNoCommand envSuccess) = 0 ∧
      numChecks (run inpNoCommand envSuccess) = 0 := by
  exact c6_missing_input inpNoCommand envSuccess (Or.inr (Or.inr rfl))

/-- C7: a rejected submission fails the run at once with the remote error
message passed through: exactly one SendCommand call is made — no retry —
and no status check ever happens. -/
theorem c7_send_rejected (inp : Inputs) (env : Env) (e : String)
    (h1 : inp.instanceId ≠ "") (h2 : inp.region ≠ "") (h3 : inp.command ≠ "")
    (hsend : env.sendResult (reqOf inp) = Except.error e) :
    failedB (run inp env) = true ∧ Event.setFailed e ∈ run inp env ∧
      numSends (run inp env) = 1 ∧ numChecks (run inp env) = 0 := by
  rw [run_send_error inp env e h1 h2 h3 hsend]
  refine ⟨?_, ?_, ?_, ?_⟩ <;>
    simp [preSend, failedB, numSends, numChecks, isSetFailed, isSend, isCheck,
      List.countP_cons]

/-- Witness for c7_send_rejected: the rejecting environment fails the run
with the passed-through message after one send and no check. -/
theorem c7_send_rejected_witness :
    failedB (run inp0 envReject) = true ∧
      Event.setFailed ("An error occurred: InvalidInstanceId") ∈ run inp0 envReject ∧
      numSends (run inp0 envReject) = 1 ∧ numChecks (run inp0 envReject) = 0 := by
  exact c7_send_rejected inp0 envReject "An error occurred: InvalidInstanceId"
    (by decide) (by decide) (by decide) rfl
theorem run_checks_le (inp : Inputs) (env : Env) :
    numChecks (run inp env) ≤ maxAttempts := by
  by_cases h1 : inp.instanceId = ""
  · rw [run_missing_instance inp env h1]
    decide
  · by_cases h2 : inp.region = ""
    · rw [run_missing_region inp env h1 h2]
      decide
    · by_cases h3 : inp.command = ""
      · rw [run_missing_command inp env h1 h2 h3]
        decide
      · cases hs : env.sendResult (reqOf inp) with
        | error e =>
          rw [run_send_error inp env e h1 h2 h3 hs]
          simp [preSend, numChecks, List.countP_append, List.countP_cons,
            isCheck, maxAttempts]
        | ok cid =>
          have hb : numChecks
              (pollLoop env cid inp.instanceId "InProgress" 0 none).1 ≤
                maxAttempts :=
            pollGo_checks_le env cid inp.instanceId maxAttempts "InProgress" 0 none
          rw [numChecks] at hb
          cases hp : (pollLoop env cid inp.instanceId "InProgress" 0 none).2 with
          | error m =>
            have hpoll : pollLoop env cid inp.instanceId "InProgress" 0 none =
                ((pollLoop env cid inp.instanceId "InProgress" 0 none).1,
                 Except.error m) := by
              rw [← hp]
            rw [run_poll_error inp env cid m _ h1 h2 h3 hs hpoll]
            have ha := (preEvents_counts inp cid).1
            rw [numChecks] at ha
            simp only [numChecks, List.countP_append]
            simp [ha, isCheck, List.countP_cons]
            omega
          | ok trip =>
            obtain ⟨resp, status, n⟩ := trip
            have hpoll : pollLoop env cid inp.instanceId "InProgress" 0 none =
                ((pollLoop env cid inp.instanceId "InProgress" 0 none).1,
                 Except.ok (resp, status, n)) := by
              rw [← hp]
            rw [run_poll_ok inp env cid status _ resp n h1 h2 h3 hs hpoll]
            have ha := (preEvents_counts inp cid).1
            rw [numChecks] at ha
            have hf := (finishRun_counts cid status resp).1
            rw [numChecks] at hf
            simp only [numChecks, List.countP_append]
            omega

theorem run_checks_eq_poll (inp : Inputs) (env : Env) (cid : String)
    (h1 : inp.instanceId ≠ "") (h2 : inp.region ≠ "") (h3 : inp.command ≠ "")
    (hs : env.sendResult (reqOf inp) = Except.ok cid) :
    numChecks (run inp env) =
      numChecks (pollLoop env cid inp.instanceId "InProgress" 0 none).1 := by
  cases hp : (pollLoop env cid inp.instanceId "InProgress" 0 none).2 with
  | error m =>
    have hpoll : pollLoop env cid inp.instanceId "InProgress" 0 none =
        ((pollLoop env cid inp.instanceId "InProgress" 0 none).1,
         Except.error m) := by
      rw [← hp]
    rw [run_poll_error inp env cid m _ h1 h2 h3 hs hpoll]
    have ha := (preEvents_counts inp cid).1
    rw [numChecks] at ha
    simp only [numChecks, List.countP_append]
    simp [ha, isCheck, List.countP_cons]
  | ok trip =>
    obtain ⟨resp, status, n⟩ := trip
    have hpoll : pollLoop env cid inp.instanceId "InProgress" 0 none =
        ((pollLoop env cid inp.instanceId "InProgress" 0 none).1,
         Except.ok (resp, status, n)) := by
      rw [← hp]
    rw [run_poll_ok inp env cid status _ resp n h1 h2 h3 hs hpoll]
    have ha := (preEvents_counts inp cid).1
    rw [numChecks] at ha
    have hf := (finishRun_counts cid status resp).1
    rw [numChecks] at hf
    simp only [numChecks, List.countP_append]
    omega

/-- C8: the timeout-seconds input defaults to 3600 when absent, is parsed
as an integer and carried in the submission request as the remote timeout;
it has no effect on the number of poll checks, which the fixed 120-attempt
cap bounds. -/
theorem c8_timeout_input (inp : Inputs) (env : Env) (cid : String) :
    (inp.timeoutSeconds = "" → (reqOf inp).TimeoutSeconds = some 3600) ∧
    ((reqOf inp).TimeoutSeconds =
      parseIntJS (effectiveTimeout inp.timeoutSeconds)) ∧
    (numChecks (run inp env) ≤ maxAttempts) ∧
    ((∀ r, env.sendResult r = Except.ok cid) → ∀ t1 t2 : String,
      numChecks (run { inp with timeoutSeconds := t1 } env) =
        numChecks (run { inp with timeoutSeconds := t2 } env)) := by
  refine ⟨?_, rfl, run_checks_le inp env, ?_⟩
  · intro h
    have ht : effectiveTimeout inp.timeoutSeconds = "3600" := by
      rw [effectiveTimeout, if_pos h]
    show parseIntJS (effectiveTimeout inp.timeoutSeconds) = some 3600
    rw [ht]
    decide
  · intro hs t1 t2
    by_cases h1 : inp.instanceId = ""
    · rw [run_missing_instance { inp with timeoutSeconds := t1 } env h1,
        run_missing_instance { inp with timeoutSeconds := t2 } env h1]
    · by_cases h2 : inp.region = ""
      · rw [run_missing_region { inp with timeoutSeconds := t1 } env h1 h2,
          run_missing_region { inp with timeoutSeconds := t2 } env h1 h2]
      · by_cases h3 : inp.command = ""
        · rw [run_missing_command { inp with timeoutSeconds := t1 } env h1 h2 h3,
            run_missing_command { inp with timeoutSeconds := t2 } env h1 h2 h3]
        · exact (run_checks_eq_poll { inp with timeoutSeconds := t1 } env cid
              h1 h2 h3 (hs _)).trans
            (run_checks_eq_poll { inp with timeoutSeconds := t2 } env cid
              h1 h2 h3 (hs _)).symm

/-- Witness for c8_timeout_input: inp0 leaves timeout-seconds empty, so the
request carries 3600; the checks of a clean run stay within the cap and do
not depend on the timeout value. -/
theorem c8_timeout_input_witness :
    (reqOf inp0).TimeoutSeconds = some 3600 ∧
      numChecks (run inp0 envSuccess) ≤ maxAttempts ∧
      numChecks (run { inp0 with timeoutSeconds := "7" } envSuccess) =
        numChecks (run { inp0 with timeoutSeconds := "9999" } envSuccess) := by
  have h := c8_timeout_input inp0 envSuccess "cid-0"
  exact ⟨h.1 rfl, h.2.2.1, h.2.2.2 (fun r => rfl) "7" "9999"⟩

/-- C9: the request parameter map holds a workingDirectory entry — a
one-element list holding the input value — exactly when the
working-directory input is non-empty; when it is empty the map holds only
the commands entry. -/
theorem c9_working_directory (instanceId command wd timeout : String) :
    (wd ≠ "" → (buildCommandParams instanceId command wd timeout).Parameters =
      { commands := [command], workingDirectory := some [wd] }) ∧
    (wd = "" → (buildCommandParams instanceId command wd timeout).Parameters =
      { commands := [command], workingDirectory := none }) := by
  constructor
  · intro h
    simp [buildCommandParams, h]
  · intro h
    simp [buildCommandParams, h]

/-- Witness for c9_working_directory: with working directory given the map
holds both entries, with it empty only the commands entry. -/
theorem c9_working_directory_witness :
    (buildCommandParams ("i-0abc") ("ls") ("/tmp") ("3600")).Parameters =
      { commands := ["ls"], workingDirectory := some ["/tmp"] } ∧
    (buildCommandParams ("i-0abc") ("ls") ("") ("3600")).Parameters =
      { commands := ["ls"], workingDirectory := none } := by
  exact ⟨(c9_working_directory "i-0abc" "ls" "/tmp" "3600").1 (by decide),
    (c9_working_directory "i-0abc" "ls" "" "3600").2 rfl⟩

/-- C10: when the terminal reply carries neither stream, the stdout and
stderr outputs are set to the empty string and the stderr failure signal is
not raised. -/
theorem c10_absent_content (inp : Inputs) (env : Env) (cid status : String)
    (evs : List Event) (resp : InvocationResponse) (n : Nat)
    (h1 : inp.instanceId ≠ "") (h2 : inp.region ≠ "") (h3 : inp.command ≠ "")
    (hsend : env.sendResult (reqOf inp) = Except.ok cid)
    (hpoll : pollLoop env cid inp.instanceId "InProgress" 0 none =
      (evs, Except.ok (resp, status, n)))
    (hout : resp.StandardOutputContent = none)
    (herr : resp.StandardErrorContent = none) :
    Event.setOutput ("stdout") ("") ∈ run inp env ∧
      Event.setOutput ("stderr") ("") ∈ run inp env ∧
      Event.setFailed ("Stderr detected") ∉ run inp env := by
  have htr := run_poll_ok inp env cid status evs resp n h1 h2 h3 hsend hpoll
  have ho := finishRun_outputs cid status resp
  refine ⟨?_, ?_, ?_⟩
  · rw [htr]
    simp only [List.mem_append]
    exact Or.inr (by simpa [hout] using ho.1)
  · rw [htr]
    simp only [List.mem_append]
    exact Or.inr (by simpa [herr] using ho.2.1)
  · rw [htr]
    intro hmem
    simp only [List.mem_append] at hmem
    rcases hmem with (hmem | hmem) | hmem
    · exact preEvents_no_setFailed inp cid _ hmem
    · have hq := pollLoop_no_setFailed env cid inp.instanceId "InProgress" 0
        none "Stderr detected"
      rw [hpoll] at hq
      exact hq hmem
    · exact finishRun_no_stderr_msg cid status resp (by simp [herr]) hmem

/-- Witness for c10_absent_content: a Success reply with both streams
absent yields empty stdout and stderr outputs and no stderr failure. -/
theorem c10_absent_content_witness :
    Event.setOutput ("stdout") ("") ∈ run inp0 envNoContent ∧
      Event.setOutput ("stderr") ("") ∈ run inp0 envNoContent ∧
      Event.setFailed ("Stderr detected") ∉ run inp0 envNoContent := by
  exact c10_absent_content inp0 envNoContent "cid-0" "Success"
    [Event.wait 5000, Event.getInvocation "cid-0" "i-0abc",
     Event.info ("Command status: " ++ "Success")] respNoContent 1
    (by decide) (by decide) (by decide) rfl rfl rfl rfl

end SSMAction
